import Mathlib

/-!
Verification development for the community intro/profile bot.

The embedded code comes from two sources:
* `src/index.js` — the AI summary generation pipeline
  (`generateIntroSummary`, `createFallbackSummary`) and the interaction router;
* `src/unnamed/part_000` — the intro/profile interaction handlers
  (`handleIntroModal`, `handleUpdateIntroButton`, `handleDeleteIntroButton`,
  `handleConfirmDeleteIntro`, `handleCancelDeleteIntro`, `handleEditProfileModal`).

External collaborators (profile store, chat channel, generator transport,
reply plumbing) are modelled from their interfaces; their outcomes are
supplied as explicit oracle parameters.
-/

/-- JavaScript-style string truthiness default: `s || dflt`. -/
def jsOr (s dflt : String) : String := if s = "" then dflt else s

/-- Character class used by `String.prototype.trim` (ASCII subset). -/
def isJsWs (c : Char) : Bool :=
  c = ' ' || c = '\t' || c = '\n' || c = '\r' || c.toNat = 11 || c.toNat = 12

/-- Embedding of `responseText.trim()`. -/
def jsTrim (s : String) : String :=
  String.mk (((s.toList.dropWhile isJsWs).reverse.dropWhile isJsWs).reverse)

/-- Embedding of `responseText.slice(0, 400)`. -/
def jsSlice400 (s : String) : String := String.mk (s.toList.take 400)

/-- A JSON value as produced by `JSON.parse` (arrays are not modelled; the
embedded parser simply fails on inputs containing them, which no claim uses). -/
inductive Json where
  | null
  | bool (b : Bool)
  | num (n : Int)
  | str (s : String)
  | obj (fields : List (String × Json))

/-- JavaScript truthiness of a JSON value. -/
def Json.truthy : Json → Bool
  | .null => false
  | .bool b => b
  | .num n => n ≠ 0
  | .str s => s ≠ ""
  | .obj _ => true

/-- JavaScript property access `v[key]` on a parsed JSON value: only objects
carry fields, later duplicate keys win, everything else yields `undefined`
(`none`).  Access on `null` throws; callers branch on `Json.null` first. -/
def Json.getField : Json → String → Option Json
  | .obj fields, k => (fields.reverse.find? (fun p => p.1 == k)).map (fun p => p.2)
  | _, _ => none

/-- JSON whitespace accepted by `JSON.parse` between tokens. -/
def jsonWsChar (c : Char) : Bool := c = ' ' || c = '\t' || c = '\n' || c = '\r'

def skipWs (cs : List Char) : List Char := cs.dropWhile jsonWsChar

/-- String-body scanner of the embedded `JSON.parse`: consumes up to the
closing quote, handling the common escapes (`\u` escapes are not modelled). -/
def parseStringAux : Nat → List Char → List Char → Option (String × List Char)
  | 0, _, _ => none
  | _ + 1, _, [] => none
  | fuel + 1, acc, c :: rest =>
    if c = '"' then some (String.mk acc.reverse, rest)
    else if c = '\\' then
      match rest with
      | [] => none
      | e :: rest2 =>
        let esc : Option Char :=
          if e = '"' then some '"'
          else if e = '\\' then some '\\'
          else if e = '/' then some '/'
          else if e = 'n' then some '\n'
          else if e = 't' then some '\t'
          else if e = 'r' then some '\r'
          else if e = 'b' then some (Char.ofNat 8)
          else if e = 'f' then some (Char.ofNat 12)
          else none
        match esc with
        | some ch => parseStringAux fuel (ch :: acc) rest2
        | none => none
    else if c.toNat < 32 then none
    else parseStringAux fuel (c :: acc) rest

/-- Integer-literal scanner of the embedded `JSON.parse` (fractions and
exponents are not modelled; the parser fails on them, which no claim uses). -/
def parseNumber (cs : List Char) : Option (Int × List Char) :=
  let (neg, cs1) : Bool × List Char :=
    match cs with
    | '-' :: t => (true, t)
    | _ => (false, cs)
  let ds := cs1.takeWhile Char.isDigit
  let rest := cs1.dropWhile Char.isDigit
  if ds.isEmpty then none
  else if 1 < ds.length ∧ ds.head? = some '0' then none
  else
    match rest with
    | c :: _ =>
      if c = '.' ∨ c = 'e' ∨ c = 'E' then none
      else
        let n : Nat := ds.foldl (fun a c => a * 10 + (c.toNat - 48)) 0
        some (if neg then -(n : Int) else (n : Int), rest)
    | [] =>
      let n : Nat := ds.foldl (fun a c => a * 10 + (c.toNat - 48)) 0
      some (if neg then -(n : Int) else (n : Int), rest)

mutual

/-- Value scanner of the embedded `JSON.parse`. -/
def parseValue : Nat → List Char → Option (Json × List Char)
  | 0, _ => none
  | fuel + 1, cs0 =>
    match skipWs cs0 with
    | [] => none
    | '{' :: rest =>
      match skipWs rest with
      | '}' :: r2 => some (.obj [], r2)
      | r2 => parseMembers fuel [] r2
    | '"' :: rest => (parseStringAux fuel [] rest).map (fun p => (.str p.1, p.2))
    | 't' :: 'r' :: 'u' :: 'e' :: r => some (.bool true, r)
    | 'f' :: 'a' :: 'l' :: 's' :: 'e' :: r => some (.bool false, r)
    | 'n' :: 'u' :: 'l' :: 'l' :: r => some (.null, r)
    | cs => (parseNumber cs).map (fun p => (.num p.1, p.2))

/-- Object-member scanner of the embedded `JSON.parse`; expects a key string. -/
def parseMembers : Nat → List (String × Json) → List Char → Option (Json × List Char)
  | 0, _, _ => none
  | fuel + 1, acc, cs =>
    match cs with
    | '"' :: rest =>
      match parseStringAux fuel [] rest with
      | none => none
      | some (k, r1) =>
        match skipWs r1 with
        | ':' :: r2 =>
          match parseValue fuel r2 with
          | none => none
          | some (v, r3) =>
            match skipWs r3 with
            | ',' :: r4 => parseMembers fuel (acc ++ [(k, v)]) (skipWs r4)
            | '}' :: r4 => some (.obj (acc ++ [(k, v)]), r4)
            | _ => none
        | _ => none
    | _ => none

end

/-- Embedding of `JSON.parse(cleaned)`: `none` models the thrown
`SyntaxError` that the source catches. -/
def jsonParse (s : String) : Option Json :=
  let cs := s.toList
  match parseValue (cs.length + 1) cs with
  | some (v, rest) => if skipWs rest = [] then some v else none
  | none => none

def isTick (c : Char) : Bool := c.toNat = 96

/-- Left-to-right scan embedding `.replace(/```json\n?/gi, '')` (three ticks
followed by a case-insensitive `json` and an optional newline are removed). -/
def stripFence1 : Nat → List Char → List Char
  | 0, cs => cs
  | _ + 1, [] => []
  | fuel + 1, c :: cs =>
    if isTick c then
      match cs with
      | c2 :: c3 :: j :: s :: o :: n :: rest =>
        if isTick c2 && isTick c3 && j.toLower = 'j' && s.toLower = 's'
            && o.toLower = 'o' && n.toLower = 'n' then
          match rest with
          | '\n' :: rest2 => stripFence1 fuel rest2
          | _ => stripFence1 fuel rest
        else c :: stripFence1 fuel cs
      | _ => c :: stripFence1 fuel cs
    else c :: stripFence1 fuel cs

/-- Left-to-right scan embedding `.replace(/```\n?/g, '')`. -/
def stripFence2 : Nat → List Char → List Char
  | 0, cs => cs
  | _ + 1, [] => []
  | fuel + 1, c :: cs =>
    if isTick c then
      match cs with
      | c2 :: c3 :: rest =>
        if isTick c2 && isTick c3 then
          match rest with
          | '\n' :: rest2 => stripFence2 fuel rest2
          | _ => stripFence2 fuel rest
        else c :: stripFence2 fuel cs
      | _ => c :: stripFence2 fuel cs
    else c :: stripFence2 fuel cs

/-- Embedding of `.replace(/^[^\x7b]*(\x7b)/s, '$1')`: drop everything before
the first opening brace, when one exists. -/
def dropBeforeBrace (cs : List Char) : List Char :=
  if cs.any (fun c => c = '{') then cs.dropWhile (fun c => !(c = '{')) else cs

/-- Embedding of `.replace(/(\x7d)[^\x7d]*$/s, '$1')`: drop everything after
the last closing brace, when one exists. -/
def dropAfterBrace (cs : List Char) : List Char :=
  if cs.any (fun c => c = '}') then (cs.reverse.dropWhile (fun c => !(c = '}'))).reverse
  else cs

/-- The response-cleaning chain of `generateIntroSummary`
(`src/index.js` lines 274–279). -/
def cleanResponse (s : String) : String :=
  let cs := s.toList
  let c1 := stripFence1 (cs.length + 1) cs
  let c2 := stripFence2 (c1.length + 1) c1
  jsTrim (String.mk (dropAfterBrace (dropBeforeBrace c2)))

/-- The five text inputs of the intro form. -/
structure IntroData where
  name : String
  role : String
  institution : String
  interests : String
  details : String
deriving DecidableEq

/-- Result shape of `createFallbackSummary`. -/
structure Fallback where
  summary : String
  experienceLevel : String
  skills : String
deriving DecidableEq

/-- Embedding of `createFallbackSummary` (`src/index.js` lines 322–331). -/
def createFallbackSummary (d : IntroData) : Fallback :=
  let name := jsOr d.name "This member"
  let interests := jsOr d.interests "AI and technology"
  { summary := name ++ " is interested in " ++ interests ++
      " and wants to learn and grow in the AI community."
    experienceLevel := "Beginner"
    skills := "Not specified" }

/-- Outcome of the external generator call, an oracle to the pipeline:
`unavailable` is the un-initialized client, `errored` any thrown transport or
extraction error, `responded` a raw text response. -/
inductive GenOutcome where
  | unavailable
  | errored
  | responded (text : String)

/-- Return value of `generateIntroSummary`: `ok` is the `success: true`
object, `failed` the `success: false` object carrying the fallback. -/
inductive AiResult where
  | ok (summary : Json) (experienceLevel : String) (skills : Json)
  | failed (fallback : Fallback)

def validLevels : List String := ["Beginner", "Builder", "Pro"]

/-- Embedding of `generateIntroSummary` (`src/index.js` lines 218–320).
A `JSON.parse` failure substitutes the raw text (sliced to 400) as summary;
property access on a parsed `null` throws and lands in the outer catch. -/
def generateIntroSummary (gen : GenOutcome) (d : IntroData) : AiResult :=
  match gen with
  | .unavailable => .failed (createFallbackSummary d)
  | .errored => .failed (createFallbackSummary d)
  | .responded text =>
    if jsTrim text = "" then .failed (createFallbackSummary d)
    else
      let parsed : Json :=
        match jsonParse (cleanResponse text) with
        | some p => p
        | none =>
          .obj [("summary", .str (jsSlice400 text)),
                ("experienceLevel", .str "Beginner"),
                ("skills", .str "Not specified")]
      match parsed with
      | .null => .failed (createFallbackSummary d)
      | p =>
        let experienceLevel :=
          match p.getField "experienceLevel" with
          | some (.str s) => if validLevels.contains s then s else "Beginner"
          | _ => "Beginner"
        let fb := createFallbackSummary d
        let summary :=
          match p.getField "summary" with
          | some v => if v.truthy then v else Json.str fb.summary
          | none => Json.str fb.summary
        let skills :=
          match p.getField "skills" with
          | some v => if v.truthy then v else Json.str fb.skills
          | none => Json.str fb.skills
        .ok summary experienceLevel skills

/-- The caller's fallback handling (`src/unnamed/part_000` lines 64–75):
summary used when the pipeline succeeded, else the fallback's. -/
def aiSummaryValue : AiResult → Json
  | .ok s _ _ => s
  | .failed f => .str f.summary

def aiLevelValue : AiResult → String
  | .ok _ l _ => l
  | .failed f => f.experienceLevel

def aiSkillsValue : AiResult → Json
  | .ok _ _ k => k
  | .failed f => .str f.skills

/-- Rendering of a JS value into message text (template-literal coercion). -/
def Json.toDisplay : Json → String
  | .null => "null"
  | .bool true => "true"
  | .bool false => "false"
  | .num n => toString n
  | .str s => s
  | .obj _ => "[object Object]"

example : cleanResponse "```json\n\x7b\"summary\":\"x\"\x7d\n```" = "\x7b\"summary\":\"x\"\x7d" := by rfl
example : jsonParse "\x7b\"summary\":\"x\"\x7d" = some (.obj [("summary", .str "x")]) := by rfl
example : jsonParse "not json at all" = none := by rfl

/-- The per-user persisted profile; `messageId` is the id of the posted
artifact, the rest the saved content
(`saveUserProfile(userId, messageId, \x7bintroData, summary, experienceLevel, skills\x7d)`). -/
structure ProfileRecord where
  messageId : String
  introData : IntroData
  summary : Json
  experienceLevel : String
  skills : Json

/-- Modelled from the spec: `ProfileStore.get(userId) -> ProfileRecord | absent`
(`src/utils/updateProfile` is not under `src/`; §6 gives its interface as a
per-user key-value store). -/
def getUserProfile (store : List (String × ProfileRecord)) (uid : String) :
    Option ProfileRecord :=
  (store.find? (fun p => p.1 == uid)).map (fun p => p.2)

/-- Modelled from the spec: `ProfileStore.delete(userId) -> void`. -/
def deleteUserProfile (store : List (String × ProfileRecord)) (uid : String) :
    List (String × ProfileRecord) :=
  store.filter (fun p => !(p.1 == uid))

/-- Modelled from the spec: `ProfileStore.save(...) -> void`; overwrites the
single record keyed by `userId`. -/
def saveUserProfile (store : List (String × ProfileRecord)) (uid : String)
    (recd : ProfileRecord) : List (String × ProfileRecord) :=
  (uid, recd) :: deleteUserProfile store uid

/-- A live message on the profile channel: its id and the user whose profile
it renders (the id tagged on its update/delete controls). -/
structure ChannelMsg where
  id : String
  owner : String

/-- Profile store plus profile channel: the state a handler can mutate. -/
structure BotState where
  store : List (String × ProfileRecord)
  channel : List ChannelMsg

/-- The distinct user-visible replies the embedded handlers can send,
one constructor per reply text in the source. -/
inductive Reply where
  | configError
  | channelFetchError
  | processing
  | publishFailed
  | created
  | modalShown
  | notYourIntroUpdate
  | notYourIntroDelete
  | confirmPrompt
  | introNotFound
  | deleted
  | cancelled
deriving DecidableEq

/-- Embedding of `customId.split('_')` (split on every underscore,
keeping empty pieces, as in JavaScript). -/
def splitUnderscoreAux : List Char → List Char → List String
  | [], acc => [String.mk acc.reverse]
  | c :: cs, acc =>
    if c = '_' then String.mk acc.reverse :: splitUnderscoreAux cs []
    else splitUnderscoreAux cs (c :: acc)

def splitUnderscore (s : String) : List String := splitUnderscoreAux s.toList []

/-- Oracle outcomes of the external calls made by `handleIntroModal`:
defer success, the resolved channel id (`config.profileChannelId ||
process.env.PROFILE_CHANNEL_ID`), channel fetch success, the generator
outcome, success of the old-artifact delete, and the publish result
(`none` models a thrown send error, `some id` the new message id). -/
structure IntroEnv where
  deferOk : Bool
  profileChannelId : Option String
  channelFetchOk : Bool
  gen : GenOutcome
  oldDeleteOk : Bool
  sendResult : Option String

/-- Embedding of `handleIntroModal` (`src/unnamed/part_000` lines 19–165):
returns the state after the interaction and the replies sent to the user. -/
def handleIntroModal (env : IntroEnv) (actorId : String) (raw : IntroData)
    (st : BotState) : BotState × List Reply :=
  if env.deferOk then
    let d : IntroData :=
      { name := jsOr raw.name "Not provided"
        role := jsOr raw.role "Not provided"
        institution := jsOr raw.institution "Not specified"
        interests := jsOr raw.interests "Not provided"
        details := jsOr raw.details "Not provided" }
    match env.profileChannelId with
    | none => (st, [.configError])
    | some _ =>
      if env.channelFetchOk then
        let aiResult := generateIntroSummary env.gen d
        let summary := aiSummaryValue aiResult
        let experienceLevel := aiLevelValue aiResult
        let skills := aiSkillsValue aiResult
        let st1 : BotState :=
          match getUserProfile st.store actorId with
          | some p =>
            if p.messageId ≠ "" ∧ env.oldDeleteOk then
              { st with channel := st.channel.filter (fun m => !(m.id == p.messageId)) }
            else st
          | none => st
        match env.sendResult with
        | none => (st1, [.processing, .publishFailed])
        | some mid =>
          let recd : ProfileRecord :=
            { messageId := mid, introData := d, summary := summary
              experienceLevel := experienceLevel, skills := skills }
          ({ store := saveUserProfile st1.store actorId recd
             channel := st1.channel ++ [{ id := mid, owner := actorId }] },
           [.processing, .created])
      else (st, [.channelFetchError])
  else (st, [])

/-- Embedding of `handleUpdateIntroButton` (`src/unnamed/part_000`
lines 167–188): ownership guard on `split('_')[2]`, then show the modal. -/
def handleUpdateIntroButton (customId actorId : String) (st : BotState) :
    BotState × List Reply :=
  let userId := (splitUnderscore customId).get? 2
  if userId ≠ some actorId then (st, [.notYourIntroUpdate])
  else (st, [.modalShown])

/-- Embedding of `handleDeleteIntroButton` (`src/unnamed/part_000`
lines 190–218): ownership guard, then the confirm/cancel prompt. -/
def handleDeleteIntroButton (customId actorId : String) (st : BotState) :
    BotState × List Reply :=
  let userId := (splitUnderscore customId).get? 2
  if userId ≠ some actorId then (st, [.notYourIntroDelete])
  else (st, [.confirmPrompt])

/-- Embedding of `handleConfirmDeleteIntro` (`src/unnamed/part_000`
lines 220–268).  The message-removal block is a best-effort inner try
(`channelOk` models channel fetch + message fetch + delete succeeding; an
unset channel id makes the fetch throw, caught by the same inner catch);
the store delete then runs unconditionally. -/
def handleConfirmDeleteIntro (profileChannelId : Option String) (channelOk : Bool)
    (customId actorId : String) (st : BotState) : BotState × List Reply :=
  let userId := (splitUnderscore customId).get? 3
  if userId ≠ some actorId then (st, [.notYourIntroDelete])
  else
    match getUserProfile st.store actorId with
    | none => (st, [.introNotFound])
    | some p =>
      if p.messageId = "" then (st, [.introNotFound])
      else
        let st1 : BotState :=
          match profileChannelId with
          | none => st
          | some _ =>
            if channelOk then
              { st with channel := st.channel.filter (fun m => !(m.id == p.messageId)) }
            else st
        ({ st1 with store := deleteUserProfile st1.store actorId }, [.deleted])

/-- Embedding of `handleCancelDeleteIntro` (`src/unnamed/part_000`
lines 270–275): no guard, no state change, just the cancellation reply. -/
def handleCancelDeleteIntro (st : BotState) : BotState × List Reply :=
  (st, [.cancelled])

/-- Embedding of `handleEditProfileModal` (`src/unnamed/part_000`
lines 277–279): delegates verbatim to `handleIntroModal`. -/
def handleEditProfileModal (env : IntroEnv) (actorId : String) (raw : IntroData)
    (st : BotState) : BotState × List Reply :=
  handleIntroModal env actorId raw st

/-- The Content Generator contract of §4.1, observed through the caller's
fallback handling: non-empty summary text, experience level in the fixed
enumeration, non-empty skills text. -/
def usableTriple (r : AiResult) : Prop :=
  (aiSummaryValue r).toDisplay ≠ "" ∧
  aiLevelValue r ∈ validLevels ∧
  (aiSkillsValue r).toDisplay ≠ ""

/-- The form fields of the spec's fallback example, with the unmentioned
fields at their sentinel defaults. -/
def raviData : IntroData :=
  { name := "Ravi", role := "Not provided", institution := "Not specified"
    interests := "NLP", details := "Not provided" }

/-- A sample stored profile used as concrete input. -/
def sampleRecord : ProfileRecord :=
  { messageId := "M1", introData := raviData, summary := .str "s"
    experienceLevel := "Beginner", skills := .str "k" }

/-- A sample state holding one profile for user `U1` with its artifact. -/
def sampleState : BotState :=
  { store := [("U1", sampleRecord)], channel := [{ id := "M1", owner := "U1" }] }

/-- Whether a parsed generator response carries an `experienceLevel` field
that is a string in the fixed three-value enumeration. -/
def levelFieldValid (j : Json) : Bool :=
  match j.getField "experienceLevel" with
  | some (.str s) => validLevels.contains s
  | _ => false

/-- A sample oracle environment: everything configured and healthy, the
generator errors (so the fallback is used), publish returns id `M9`. -/
def sampleEnv : IntroEnv :=
  { deferOk := true, profileChannelId := some "CH", channelFetchOk := true
    gen := .errored, oldDeleteOk := true, sendResult := some "M9" }

/-- The same oracle environment with the profile channel id unset. -/
def sampleEnvNoCfg : IntroEnv :=
  { deferOk := true, profileChannelId := none, channelFetchOk := true
    gen := .errored, oldDeleteOk := true, sendResult := some "M9" }

lemma getUserProfile_save (store : List (String × ProfileRecord)) (uid : String)
    (recd : ProfileRecord) :
    getUserProfile (saveUserProfile store uid recd) uid = some recd := by
  simp [getUserProfile, saveUserProfile, List.find?]

lemma getUserProfile_delete (store : List (String × ProfileRecord)) (uid : String) :
    getUserProfile (deleteUserProfile store uid) uid = none := by
  induction store with
  | nil => rfl
  | cons p t ih =>
    by_cases h : p.1 == uid
    · simp [deleteUserProfile, List.filter_cons, h] at ih ⊢
      exact ih
    · simp only [deleteUserProfile, List.filter_cons, h] at ih ⊢
      simp [getUserProfile, List.find?, h] at ih ⊢
      try exact ih

lemma append_ne_empty_right (s t : String) (ht : t ≠ "") : s ++ t ≠ "" := by
  intro h
  apply ht
  have h2 : (s ++ t).data = ("" : String).data := by rw [h]
  rw [String.data_append] at h2
  rcases List.append_eq_nil.mp h2 with ⟨_, h4⟩
  exact String.ext h4

lemma createFallbackSummary_summary_ne_empty (d : IntroData) :
    (createFallbackSummary d).summary ≠ "" := by
  show (_ ++ _ ++ _ ++ _) ≠ ""
  exact append_ne_empty_right _ _ (by decide)

lemma jsTrim_empty : jsTrim "" = "" := rfl

lemma ne_empty_of_jsTrim_ne_empty (r : String) (h : jsTrim r ≠ "") : r ≠ "" := by
  intro hr
  apply h
  rw [hr]
  rfl

lemma jsSlice400_ne_empty (r : String) (hr : r ≠ "") : jsSlice400 r ≠ "" := by
  intro h
  apply hr
  have h2 : (jsSlice400 r).data = ("" : String).data := by rw [h]
  simp only [jsSlice400] at h2
  have h3 : r.toList.take 400 = [] := h2
  rcases List.take_eq_nil_iff.mp h3 with h4 | h4
  · omega
  · exact String.ext h4

/-- C3: for every set of form fields, the summary pipeline composed with the
caller's fallback handling yields a non-empty summary, an experience level in
the Beginner/Builder/Pro enumeration, and non-empty skills, both when the
generator call throws (or the client is unavailable) and when it returns the
non-JSON text "not json at all". -/
theorem generateIntroSummary_usable_on_failures (d : IntroData) :
    usableTriple (generateIntroSummary .unavailable d) ∧
    usableTriple (generateIntroSummary .errored d) ∧
    usableTriple (generateIntroSummary (.responded "not json at all") d) :=
  ⟨⟨createFallbackSummary_summary_ne_empty d,
    by show "Beginner" ∈ validLevels; decide,
    by show ("Not specified" : String) ≠ ""; decide⟩,
   ⟨createFallbackSummary_summary_ne_empty d,
    by show "Beginner" ∈ validLevels; decide,
    by show ("Not specified" : String) ≠ ""; decide⟩,
   ⟨by show ("not json at all" : String) ≠ ""; decide,
    by show "Beginner" ∈ validLevels; decide,
    by show ("Not specified" : String) ≠ ""; decide⟩⟩

/-- C4 counterexample: the deterministic fallback for the fields
`name = "Ravi"`, `interests = "NLP"` is not the claim's exact sentence
"Ravi is interested in NLP and wants to learn and grow in the community.". -/
theorem createFallbackSummary_ravi_text_differs :
    (createFallbackSummary raviData).summary ≠
      "Ravi is interested in NLP and wants to learn and grow in the community." := by
  decide

/-- C4 (amended): the fallback for the Ravi/NLP fields is exactly
"Ravi is interested in NLP and wants to learn and grow in the AI community."
with level Beginner and skills "Not specified"; in general the fallback
summary follows the template with the defaulted name and interests and the
closing phrase "and wants to learn and grow in the AI community.". -/
theorem createFallbackSummary_template :
    (createFallbackSummary raviData).summary =
      "Ravi is interested in NLP and wants to learn and grow in the AI community." ∧
    (createFallbackSummary raviData).experienceLevel = "Beginner" ∧
    (createFallbackSummary raviData).skills = "Not specified" ∧
    ∀ d : IntroData, (createFallbackSummary d).summary =
      jsOr d.name "This member" ++ " is interested in " ++
        jsOr d.interests "AI and technology" ++
        " and wants to learn and grow in the AI community." :=
  ⟨by decide, rfl, rfl, fun _ => rfl⟩

/-- C9: a generator response wrapping the JSON object in markdown code fences
is recovered by the cleaning step to exactly the inner object, and the
pipeline returns its three fields verbatim. -/
theorem cleanResponse_recovers_fenced_json :
    cleanResponse
        "```json\n\x7b\"summary\":\"x\",\"experienceLevel\":\"Pro\",\"skills\":\"Go\"\x7d\n```"
      = "\x7b\"summary\":\"x\",\"experienceLevel\":\"Pro\",\"skills\":\"Go\"\x7d" ∧
    jsonParse "\x7b\"summary\":\"x\",\"experienceLevel\":\"Pro\",\"skills\":\"Go\"\x7d"
      = some (.obj [("summary", .str "x"), ("experienceLevel", .str "Pro"),
                    ("skills", .str "Go")]) ∧
    generateIntroSummary
        (.responded
          "```json\n\x7b\"summary\":\"x\",\"experienceLevel\":\"Pro\",\"skills\":\"Go\"\x7d\n```")
        raviData
      = .ok (.str "x") "Pro" (.str "Go") :=
  ⟨rfl, rfl, rfl⟩

/-- C5 counterexample: for the non-recoverable response "not json at all" the
pipeline's summary is the raw response text, not the deterministic fallback
template that a transport error produces. -/
theorem generateIntroSummary_nonjson_differs_from_fallback :
    jsonParse (cleanResponse "not json at all") = none ∧
    (aiSummaryValue (generateIntroSummary (.responded "not json at all") raviData)).toDisplay
      = "not json at all" ∧
    (aiSummaryValue (generateIntroSummary .errored raviData)).toDisplay
      = (createFallbackSummary raviData).summary ∧
    ("not json at all" : String) ≠ (createFallbackSummary raviData).summary :=
  ⟨rfl, rfl, rfl, by decide⟩

/-- C5 (amended): a transport error or an empty response yields the
deterministic fallback object, but a non-empty response that is not
recoverable as JSON after cleaning yields a success result whose summary is
the raw response text truncated to 400 characters, with level Beginner and
skills "Not specified" — not the fallback template. -/
theorem generateIntroSummary_nonjson_uses_raw_text (d : IntroData) (r : String)
    (h1 : jsTrim r ≠ "") (h2 : jsonParse (cleanResponse r) = none) :
    generateIntroSummary (.responded r) d =
      .ok (.str (jsSlice400 r)) "Beginner" (.str "Not specified") ∧
    generateIntroSummary .errored d = .failed (createFallbackSummary d) ∧
    (∀ r', jsTrim r' = "" →
      generateIntroSummary (.responded r') d = .failed (createFallbackSummary d)) := by
  refine ⟨?_, rfl, fun r' h' => by simp [generateIntroSummary, h']⟩
  have hs : jsSlice400 r ≠ "" :=
    jsSlice400_ne_empty r (ne_empty_of_jsTrim_ne_empty r h1)
  simp [generateIntroSummary, h1, h2, Json.getField, Json.truthy, hs]

/-- C8: whenever the cleaned response parses as JSON but its
`experienceLevel` field is not one of Beginner/Builder/Pro, the pipeline's
returned experience level is coerced to Beginner. -/
theorem generateIntroSummary_coerces_bad_level (d : IntroData) (r : String)
    (parsed : Json) (h1 : jsTrim r ≠ "")
    (h2 : jsonParse (cleanResponse r) = some parsed)
    (h3 : levelFieldValid parsed = false) :
    aiLevelValue (generateIntroSummary (.responded r) d) = "Beginner" := by
  cases parsed with
  | null => simp [generateIntroSummary, h1, h2, aiLevelValue, createFallbackSummary]
  | bool b => simp [generateIntroSummary, h1, h2, aiLevelValue, Json.getField]
  | num n => simp [generateIntroSummary, h1, h2, aiLevelValue, Json.getField]
  | str s => simp [generateIntroSummary, h1, h2, aiLevelValue, Json.getField]
  | obj fields =>
    simp only [generateIntroSummary, h2, if_neg h1, aiLevelValue]
    unfold levelFieldValid at h3
    cases hf : (Json.obj fields).getField "experienceLevel" with
    | none => simp [hf]
    | some v =>
      rw [hf] at h3
      cases v with
      | str s =>
        have h4 : validLevels.contains s = false := h3
        have h5 : s ∉ validLevels := by simpa using h4
        simp [hf, h4]
        exact fun hmem => absurd hmem h5
      | null => simp [hf]
      | bool b => simp [hf]
      | num n => simp [hf]
      | obj o => simp [hf]

/-- C5 witness: the amended statement instantiated at the concrete
non-recoverable response "not json at all". -/
theorem generateIntroSummary_nonjson_uses_raw_text_witness :
    jsTrim "not json at all" ≠ "" ∧
    jsonParse (cleanResponse "not json at all") = none ∧
    generateIntroSummary (.responded "not json at all") raviData =
      .ok (.str (jsSlice400 "not json at all")) "Beginner" (.str "Not specified") :=
  ⟨by decide, rfl,
   (generateIntroSummary_nonjson_uses_raw_text raviData "not json at all"
     (by decide) rfl).1⟩

/-- C8 witness: the coercion instantiated at a response whose
`experienceLevel` is the out-of-enumeration value "Expert". -/
theorem generateIntroSummary_coerces_bad_level_witness :
    jsTrim "\x7b\"experienceLevel\":\"Expert\"\x7d" ≠ "" ∧
    jsonParse (cleanResponse "\x7b\"experienceLevel\":\"Expert\"\x7d")
      = some (.obj [("experienceLevel", .str "Expert")]) ∧
    levelFieldValid (.obj [("experienceLevel", .str "Expert")]) = false ∧
    aiLevelValue (generateIntroSummary
      (.responded "\x7b\"experienceLevel\":\"Expert\"\x7d") raviData) = "Beginner" :=
  ⟨by decide, rfl, rfl,
   generateIntroSummary_coerces_bad_level raviData
     "\x7b\"experienceLevel\":\"Expert\"\x7d"
     (.obj [("experienceLevel", .str "Expert")]) (by decide) rfl rfl⟩

/-- C1: a profile creation by a user with no existing record, with the
instance configured and the channel reachable: a publish failure leaves the
state untouched and replies with the failure report; a publish success saves
a record for the user whose messageId is the id returned by the publish. -/
theorem handleIntroModal_create (env : IntroEnv) (actor : String)
    (raw : IntroData) (st : BotState) (cid : String)
    (hdef : env.deferOk = true) (hcfg : env.profileChannelId = some cid)
    (hch : env.channelFetchOk = true)
    (hnone : getUserProfile st.store actor = none) :
    (env.sendResult = none →
      handleIntroModal env actor raw st = (st, [.processing, .publishFailed])) ∧
    (∀ mid, env.sendResult = some mid →
      ∃ recd, getUserProfile (handleIntroModal env actor raw st).1.store actor
          = some recd ∧ recd.messageId = mid) := by
  constructor
  · intro hs
    simp [handleIntroModal, hdef, hcfg, hch, hnone, hs]
  · intro mid hs
    simp only [handleIntroModal, hdef, hcfg, hch, hnone, hs, if_true]
    exact ⟨_, getUserProfile_save _ _ _, rfl⟩

/-- C1 witness: the create path at a concrete configured environment with an
empty store, where publish returns the id `M9`. -/
theorem handleIntroModal_create_witness :
    sampleEnv.deferOk = true ∧ sampleEnv.profileChannelId = some "CH" ∧
    sampleEnv.channelFetchOk = true ∧
    getUserProfile (BotState.mk [] []).store "U1" = none ∧
    ((sampleEnv.sendResult = none →
      handleIntroModal sampleEnv "U1" raviData (BotState.mk [] [])
        = (BotState.mk [] [], [.processing, .publishFailed])) ∧
     (∀ mid, sampleEnv.sendResult = some mid →
      ∃ recd, getUserProfile
          (handleIntroModal sampleEnv "U1" raviData (BotState.mk [] [])).1.store "U1"
          = some recd ∧ recd.messageId = mid)) :=
  ⟨rfl, rfl, rfl, rfl,
   handleIntroModal_create sampleEnv "U1" raviData (BotState.mk [] []) "CH"
     rfl rfl rfl rfl⟩

/-- C10: submitting the edit-profile modal is the same operation as
submitting the intro modal, for every input and state. -/
theorem handleEditProfileModal_matches_handleIntroModal (env : IntroEnv)
    (actor : String) (raw : IntroData) (st : BotState) :
    handleEditProfileModal env actor raw st = handleIntroModal env actor raw st :=
  rfl

/-- C2: when the acting user differs from the userId tagged on the control
(extracted from the control id by positional splitting), the update button,
the delete button and the delete confirmation are all rejected with the
ownership message and the state is left unchanged. -/
theorem ownership_guard_rejects (cidButton cidConfirm actor : String)
    (st : BotState) (cfg : Option String) (chOk : Bool)
    (h2 : (splitUnderscore cidButton).get? 2 ≠ some actor)
    (h3 : (splitUnderscore cidConfirm).get? 3 ≠ some actor) :
    handleUpdateIntroButton cidButton actor st = (st, [.notYourIntroUpdate]) ∧
    handleDeleteIntroButton cidButton actor st = (st, [.notYourIntroDelete]) ∧
    handleConfirmDeleteIntro cfg chOk cidConfirm actor st
      = (st, [.notYourIntroDelete]) := by
  simp only [List.get?_eq_getElem?] at h2 h3
  refine ⟨?_, ?_, ?_⟩ <;>
    simp [handleUpdateIntroButton, handleDeleteIntroButton,
      handleConfirmDeleteIntro, h2, h3]

/-- C2 witness: user `B` pressing controls tagged with owner `A`. -/
theorem ownership_guard_rejects_witness :
    (splitUnderscore "update_intro_A").get? 2 ≠ some "B" ∧
    (splitUnderscore "confirm_delete_intro_A").get? 3 ≠ some "B" ∧
    handleUpdateIntroButton "update_intro_A" "B" sampleState
      = (sampleState, [.notYourIntroUpdate]) ∧
    handleDeleteIntroButton "update_intro_A" "B" sampleState
      = (sampleState, [.notYourIntroDelete]) ∧
    handleConfirmDeleteIntro (some "CH") true "confirm_delete_intro_A" "B" sampleState
      = (sampleState, [.notYourIntroDelete]) := by
  refine ⟨by decide, by decide, ?_⟩
  exact ownership_guard_rejects "update_intro_A" "confirm_delete_intro_A" "B"
    sampleState (some "CH") true (by decide) (by decide)

/-- C6: in the delete confirmation flow for the owning user, request followed
by cancel leaves the state unchanged; request followed by confirm removes the
record from the store and the artifact from the channel and reports the
deletion; confirming a second time is a not-found no-op on an unchanged
state. -/
theorem delete_confirm_flow (st : BotState) (uid cfg cidD cidC : String)
    (recd : ProfileRecord)
    (hD : (splitUnderscore cidD).get? 2 = some uid)
    (hC : (splitUnderscore cidC).get? 3 = some uid)
    (hrec : getUserProfile st.store uid = some recd)
    (hmsg : recd.messageId ≠ "") :
    (handleCancelDeleteIntro (handleDeleteIntroButton cidD uid st).1).1 = st ∧
    (getUserProfile
        (handleConfirmDeleteIntro (some cfg) true cidC uid
          (handleDeleteIntroButton cidD uid st).1).1.store uid = none ∧
      (∀ m, m ∈ (handleConfirmDeleteIntro (some cfg) true cidC uid
          (handleDeleteIntroButton cidD uid st).1).1.channel →
        m.id ≠ recd.messageId) ∧
      (handleConfirmDeleteIntro (some cfg) true cidC uid
          (handleDeleteIntroButton cidD uid st).1).2 = [.deleted]) ∧
    handleConfirmDeleteIntro (some cfg) true cidC uid
        (handleConfirmDeleteIntro (some cfg) true cidC uid st).1
      = ((handleConfirmDeleteIntro (some cfg) true cidC uid st).1,
         [.introNotFound]) := by
  simp only [List.get?_eq_getElem?] at hD hC
  have hbutton : handleDeleteIntroButton cidD uid st = (st, [.confirmPrompt]) := by
    simp [handleDeleteIntroButton, hD]
  have hconfirm : handleConfirmDeleteIntro (some cfg) true cidC uid st =
      ({ store := deleteUserProfile st.store uid,
         channel := st.channel.filter (fun m => !(m.id == recd.messageId)) },
       [.deleted]) := by
    simp [handleConfirmDeleteIntro, hC, hrec, hmsg]
  have h1 : (handleDeleteIntroButton cidD uid st).1 = st := by rw [hbutton]
  refine ⟨by rw [h1]; rfl, ?_, ?_⟩
  · rw [h1, hconfirm]
    refine ⟨getUserProfile_delete _ _, ?_, rfl⟩
    intro m hm
    have hm2 : m ∈ List.filter (fun m => !(m.id == recd.messageId)) st.channel := hm
    have hm3 := (List.mem_filter.mp hm2).2
    simpa using hm3
  · rw [hconfirm]
    simp [handleConfirmDeleteIntro, hC, getUserProfile_delete]

/-- C6 witness: the delete flow instantiated at a state holding one profile
for user `U1` whose artifact is `M1`. -/
theorem delete_confirm_flow_witness :
    (splitUnderscore "delete_intro_U1").get? 2 = some "U1" ∧
    (splitUnderscore "confirm_delete_intro_U1").get? 3 = some "U1" ∧
    getUserProfile sampleState.store "U1" = some sampleRecord ∧
    sampleRecord.messageId ≠ "" ∧
    getUserProfile
      (handleConfirmDeleteIntro (some "CH") true "confirm_delete_intro_U1" "U1"
        (handleDeleteIntroButton "delete_intro_U1" "U1" sampleState).1).1.store "U1"
      = none :=
  ⟨rfl, rfl, rfl, by decide,
   (delete_confirm_flow sampleState "U1" "CH" "delete_intro_U1"
     "confirm_delete_intro_U1" sampleRecord rfl rfl rfl (by decide)).2.1.1⟩

/-- C7 counterexample: on an instance with the channel id unset, a confirmed
delete still removes the user's ProfileRecord from the store and reports
success rather than a configuration error. -/
theorem confirmDelete_unconfigured_removes_record :
    getUserProfile sampleState.store "U1" = some sampleRecord ∧
    (handleConfirmDeleteIntro none true "confirm_delete_intro_U1" "U1"
      sampleState).2 = [.deleted] ∧
    getUserProfile (handleConfirmDeleteIntro none true "confirm_delete_intro_U1"
      "U1" sampleState).1.store "U1" = none :=
  ⟨rfl, rfl, rfl⟩

/-- C7 (amended): with the channel id unset, create and update (both modal
submissions) return the configuration error and mutate nothing, but the
delete confirmation performs no configuration check: it skips only the
artifact removal, still deletes the ProfileRecord from the store, and
reports success. -/
theorem unconfigured_instance_behavior (env : IntroEnv) (actor : String)
    (raw : IntroData) (st : BotState)
    (hdef : env.deferOk = true) (hcfg : env.profileChannelId = none) :
    handleIntroModal env actor raw st = (st, [.configError]) ∧
    handleEditProfileModal env actor raw st = (st, [.configError]) ∧
    (∀ chOk cid uid recd, (splitUnderscore cid).get? 3 = some uid →
      getUserProfile st.store uid = some recd → recd.messageId ≠ "" →
      (handleConfirmDeleteIntro none chOk cid uid st).1.channel = st.channel ∧
      getUserProfile (handleConfirmDeleteIntro none chOk cid uid st).1.store uid
        = none ∧
      (handleConfirmDeleteIntro none chOk cid uid st).2 = [.deleted]) := by
  refine ⟨?_, ?_, ?_⟩
  · simp [handleIntroModal, hdef, hcfg]
  · simp [handleEditProfileModal, handleIntroModal, hdef, hcfg]
  · intro chOk cid uid recd hcid hrec hmsg
    simp only [List.get?_eq_getElem?] at hcid
    simp [handleConfirmDeleteIntro, hcid, hrec, hmsg, getUserProfile_delete]

/-- C7 witness: the unconfigured-instance behavior at a concrete environment
and a store holding a profile for `U1`. -/
theorem unconfigured_instance_behavior_witness :
    sampleEnvNoCfg.deferOk = true ∧
    sampleEnvNoCfg.profileChannelId = none ∧
    handleIntroModal sampleEnvNoCfg "U1" raviData sampleState
      = (sampleState, [.configError]) ∧
    ((splitUnderscore "confirm_delete_intro_U1").get? 3 = some "U1" ∧
     getUserProfile sampleState.store "U1" = some sampleRecord ∧
     sampleRecord.messageId ≠ "" ∧
     getUserProfile (handleConfirmDeleteIntro none true "confirm_delete_intro_U1"
       "U1" sampleState).1.store "U1" = none) :=
  ⟨rfl, rfl,
   (unconfigured_instance_behavior sampleEnvNoCfg "U1" raviData sampleState
     rfl rfl).1,
   rfl, rfl, by decide,
   ((unconfigured_instance_behavior sampleEnvNoCfg "U1" raviData sampleState
     rfl rfl).2.2 true "confirm_delete_intro_U1" "U1" sampleRecord rfl rfl
     (by decide)).2.1⟩
